import Mathlib

/-!
Shallow embedding of the SageMaker-hosted Stable Video Diffusion sample
application: `streamlit_web_app/app.py` (session defaults, upload size gate,
request staging, asynchronous invocation, the S3 polling loop, frame decoding
and video assembly) and `inference/inference.py` (`predict_fn`: parameter
defaults, conditioning-image resize, echoed configuration).

Machine integers are modelled as `Nat`/`Int`, Python floats whose values are
exact decimals as `ℚ`, byte strings as `List Nat`, and fallible Python code as
`Except`/`Option`.
-/

namespace SVD

/-- `MAX_FILE_SIZE = 5 * 1024 * 1024` from app.py (5 MiB upload limit). -/
def MAX_FILE_SIZE : Nat := 5 * 1024 * 1024

/-- Fixed inter-check delay of the polling loop: `time.sleep(15)` in
`get_model_response`. -/
def SLEEP_SECONDS : Nat := 15

/-- `InvocationTimeoutSeconds=3600` passed to `invoke_endpoint_async`:
the job's configured maximum duration. -/
def INVOCATION_TIMEOUT_SECONDS : Nat := 3600

/-- The data-URI marker `"data:text/plain;base64,"` (constant named
`BASE64_PREFIX` in inference.py and inlined in app.py's `encode_image`). -/
def BASE64_MARKER : String := "data:text/plain;base64,"

/-! ### Base64, modelling Python's `base64.b64encode` / `base64.b64decode`

`base64.b64decode(s)` with the default `validate=False` is CPython's
`binascii.a2b_base64` in non-strict mode: characters outside the base64
alphabet are silently discarded; a `'='` seen with at least two characters in
the current quad and enough accumulated pad characters ends decoding
successfully; at end of input a quad position of 1 raises
"Invalid base64-encoded string: ...", positions 2 and 3 raise
"Incorrect padding". Bytes are `Nat` values < 256. -/

/-- Value of a base64 alphabet character, `none` for a non-alphabet
character (which non-strict `a2b_base64` silently skips). -/
def b64val (c : Char) : Option Nat :=
  if 'A' ≤ c ∧ c ≤ 'Z' then some (c.toNat - 65)
  else if 'a' ≤ c ∧ c ≤ 'z' then some (c.toNat - 97 + 26)
  else if '0' ≤ c ∧ c ≤ '9' then some (c.toNat - 48 + 52)
  else if c = '+' then some 62
  else if c = '/' then some 63
  else none

/-- The base64 alphabet, for encoding. -/
def b64alphabet : List Char :=
  "ABCDEFGHIJKLMNOPQRSTUVWXYZabcdefghijklmnopqrstuvwxyz0123456789+/".data

/-- Character for a 6-bit value. -/
def b64char (n : Nat) : Char := b64alphabet.getD n 'A'

/-- Core of `base64.b64encode`: groups of three bytes become four alphabet
characters; a final group of one or two bytes is padded with `'='`. -/
def b64encodeChars : List Nat → List Char
  | [] => []
  | [b1] => [b64char (b1 / 4), b64char (b1 % 4 * 16), '=', '=']
  | [b1, b2] =>
      [b64char (b1 / 4), b64char (b1 % 4 * 16 + b2 / 16), b64char (b2 % 16 * 4), '=']
  | b1 :: b2 :: b3 :: rest =>
      b64char (b1 / 4) :: b64char (b1 % 4 * 16 + b2 / 16) ::
        b64char (b2 % 16 * 4 + b3 / 64) :: b64char (b3 % 64) :: b64encodeChars rest

/-- `base64.b64encode(bs).decode()` as a string. -/
def b64encode (bs : List Nat) : String := (b64encodeChars bs).asString

/-- One pass of CPython's non-strict `binascii.a2b_base64`: `quadPos` is the
position inside the current group of four characters, `acc` the leftover bits
of the previous character (`leftchar`), `pads` the count of pending `'='`,
`out` the bytes emitted so far (reversed). -/
def a2b_base64 : List Char → Nat → Nat → Nat → List Nat → Except String (List Nat)
  | [], quadPos, _, _, out =>
    if quadPos = 0 then .ok out.reverse
    else if quadPos = 1 then
      .error "Invalid base64-encoded string: number of data characters cannot be 1 more than a multiple of 4"
    else .error "Incorrect padding"
  | c :: cs, quadPos, acc, pads, out =>
    if c = '=' then
      if 2 ≤ quadPos ∧ 4 ≤ quadPos + (pads + 1) then .ok out.reverse
      else a2b_base64 cs quadPos acc (pads + 1) out
    else
      match b64val c with
      | none => a2b_base64 cs quadPos acc pads out
      | some v =>
        match quadPos with
        | 0 => a2b_base64 cs 1 v 0 out
        | 1 => a2b_base64 cs 2 (v % 16) 0 ((acc * 4 + v / 16) :: out)
        | 2 => a2b_base64 cs 3 (v % 4) 0 ((acc * 16 + v / 4) :: out)
        | _ => a2b_base64 cs 0 0 0 ((acc * 64 + v) :: out)

/-- `base64.b64decode(s)` on a `str` argument: rejects non-ASCII input
(`"string argument should contain only ASCII characters"`), then runs
non-strict `a2b_base64`. -/
def b64decode (s : String) : Except String (List Nat) :=
  if s.data.any (fun c => 128 ≤ c.toNat) then
    .error "string argument should contain only ASCII characters"
  else a2b_base64 s.data 0 0 0 []

/-! ### Frame files and the encoder's glob (app.py `process_video_frames`,
`convert_frames_to_video`) -/

/-- Python `f"{n:02}"`: decimal, left-padded with zeros to width two. -/
def pad2 (n : Nat) : String := if n < 10 then "0" ++ toString n else toString n

/-- `f"frames_out/frame_{idx+1:02}.jpg"` for the 0-based enumeration index
`idx` from `process_video_frames`. -/
def frame_name (idx : Nat) : String := "frames_out/frame_" ++ pad2 (idx + 1) ++ ".jpg"

/-- Recursion of `process_video_frames`: decode each base64 entry and write it
to its frame file; a decode failure aborts the run (the exception propagates).
Returns the list of (filename, bytes) pairs written. -/
def processFramesFrom : List String → Nat → Except String (List (String × List Nat))
  | [], _ => .ok []
  | f :: fs, idx =>
    match b64decode f with
    | .error e => .error e
    | .ok bytes => (processFramesFrom fs (idx + 1)).map (fun rest => (frame_name idx, bytes) :: rest)

/-- `process_video_frames`: iterate over `data["frames"]` with `enumerate`. -/
def process_video_frames (frames : List String) : Except String (List (String × List Nat)) :=
  processFramesFrom frames 0

/-- Files written for an already-decoded frame list (bytes), in original
order: frame `i` (0-based) goes to `frame_name i`. -/
def write_frames (frames : List (List Nat)) : List (String × List Nat) :=
  frames.enum.map (fun p => (frame_name p.1, p.2))

/-- Strict lexicographic order on character lists (for ASCII filenames this
is exactly the C-locale byte order a POSIX glob sorts by). -/
def charsLt : List Char → List Char → Bool
  | [], [] => false
  | [], _ :: _ => true
  | _ :: _, [] => false
  | a :: as, b :: bs => a < b || (a = b && charsLt as bs)

/-- Strict lexical order on filenames. -/
def nameLt (a b : String) : Bool := charsLt a.data b.data

/-- Reflexive lexical order on filenames. -/
def nameLe (a b : String) : Bool := !nameLt b a

/-- The external encoder's glob `frames_out/*.jpg` lists the matching
filenames in lexical (byte-wise) order. -/
def glob_jpgs (files : List (String × List Nat)) : List String :=
  List.insertionSort (fun a b => nameLe a b = true) (files.map Prod.fst)

/-- Frame bytes in the order the encoder consumes them: each globbed filename
is read back. -/
def encoder_input_frames (files : List (String × List Nat)) : List (List Nat) :=
  (glob_jpgs files).filterMap (fun n => files.lookup n)

/-- Round trip of app.py's frame writing followed by the encoder's
lexically-sorted glob: the encoder sees exactly the original frame order. -/
def glob_round_trip (frames : List (List Nat)) : Prop :=
  encoder_input_frames (write_frames frames) = frames

/-! ### The polling loop (app.py `get_model_response`)

The loop is `while True:`; per iteration it calls `head_object` on the
success location; on success it downloads the object and returns `True`; on a
`ClientError` whose code is `"NoSuchKey"` or `"404"` it tries to download the
failure object (returning `False` if that works, swallowing any exception
otherwise), sleeps 15 s and continues; any other `ClientError` code is
re-raised.  An environment assigns to each iteration the outcome of the two
storage probes; `found` abstracts "head and the subsequent download both
succeed". -/

/-- Outcome of the `head_object` call on the success location. -/
inductive HeadResult where
  | found
  | clientError (code : String)
deriving DecidableEq, Repr

/-- What the object store answers on each iteration of the loop. -/
structure PollEnv where
  succ : Nat → HeadResult
  failureFetchable : Nat → Bool

/-- Result of `get_model_response`: `True`, `False`, or a re-raised
`ClientError` (there is no timeout outcome in the code). -/
inductive PollResult where
  | success
  | failure
  | raised (code : String)
deriving DecidableEq, Repr

/-- The error codes treated as "not found":
`e.response["Error"]["Code"] in ("NoSuchKey", "404")`. -/
def not_found_codes : List String := ["NoSuchKey", "404"]

/-- One iteration of the loop body at iteration index `i`: `none` means
"sleep 15 seconds and continue". -/
def poll_step (env : PollEnv) (i : Nat) : Option PollResult :=
  match env.succ i with
  | .found => some .success
  | .clientError code =>
    if code ∈ not_found_codes then
      if env.failureFetchable i then some .failure else none
    else some (.raised code)

/-- Run the loop for at most `fuel` iterations starting at iteration `i`;
`none` means the loop is still running after `fuel` iterations. -/
def poll_run (env : PollEnv) : Nat → Nat → Option PollResult
  | 0, _ => none
  | fuel + 1, i =>
    match poll_step env i with
    | some r => some r
    | none => poll_run env fuel (i + 1)

/-- Number of success-location checks performed within `fuel` iterations
starting at iteration `i`. -/
def poll_iters (env : PollEnv) : Nat → Nat → Nat
  | 0, _ => 0
  | fuel + 1, i =>
    match poll_step env i with
    | some _ => 1
    | none => poll_iters env fuel (i + 1) + 1

/-- Environment in which neither the success nor the failure location ever
becomes fetchable: every head returns a 404 `ClientError` and the failure
download always raises. -/
def never_fetchable_env : PollEnv :=
  ⟨fun _ => .clientError "404", fun _ => false⟩

/-- Monotone-visibility environment: the success object is fetchable from
iteration `sa` onward, the failure object from iteration `fa` onward. -/
def first_visible_env (sa fa : Nat) : PollEnv :=
  ⟨fun i => if sa ≤ i then .found else .clientError "404", fun i => decide (fa ≤ i)⟩

/-! ### Streamlit session state and request staging (app.py) -/

/-- Opened image: PIL exposes `width`, `height` (`image.size`). -/
structure PILImage where
  width : Nat
  height : Nat
deriving DecidableEq, Repr

/-- A Streamlit `UploadedFile` together with what PIL extracts from it:
`name` and byte `size` come from the upload widget; `image` is the result of
`Image.open`; `jpeg_bytes` are the bytes PIL's (opaque) JPEG encoder produces
for it inside `encode_image`. -/
structure UploadedFile where
  name : String
  size : Nat
  image : PILImage
  jpeg_bytes : List Nat
deriving DecidableEq, Repr

/-- `S3_BUCKET` placeholder constant from app.py. -/
def S3_BUCKET : String := "sagemaker-us-east-1-CHANGE-ME"

/-- `ENDPOINT_NAME` placeholder constant from app.py. -/
def ENDPOINT_NAME : String := "huggingface-pytorch-inference-CHANGE-ME"

/-- The pipeline-relevant Streamlit session state. Generation parameters are
the plain Python ints (`Nat` here; `seed` as `Int`) and exact-decimal floats
(`ℚ` here) that `st.number_input` hands back. -/
structure Session where
  aws_region : String
  s3_bucket : String
  sagemaker_endpoint_name : String
  play_video_disabled : Bool
  invocation_time : Nat
  movie_title : Option String
  width : Nat
  height : Nat
  num_frames : Nat
  num_inference_steps : Nat
  min_guidance_scale : ℚ
  max_guidance_scale : ℚ
  fps : Nat
  motion_bucket_id : Nat
  noise_aug_strength : ℚ
  decode_chunk_size : Nat
  seed : Int
  uploaded_image : Option UploadedFile

/-- `session_state_defaults` from `reset_session_states`. -/
def session_state_defaults : Session where
  aws_region := "us-east-1"
  s3_bucket := S3_BUCKET
  sagemaker_endpoint_name := ENDPOINT_NAME
  play_video_disabled := true
  invocation_time := 0
  movie_title := none
  width := 1024
  height := 576
  num_frames := 25
  num_inference_steps := 25
  min_guidance_scale := 1.0
  max_guidance_scale := 3.0
  fps := 6
  motion_bucket_id := 127
  noise_aug_strength := 0.02
  decode_chunk_size := 8
  seed := 42
  uploaded_image := none

/-- Index of the last occurrence of `c` in `cs` (Python `str.rfind`,
as `Option` instead of `-1`). -/
def last_index_of (cs : List Char) (c : Char) : Option Nat :=
  ((cs.enum.filter (fun p => p.2 = c)).map Prod.fst).getLast?

/-- Root part of `os.path.splitext(p)` (posixpath `_splitext` with `sep='/'`,
`extsep='.'`): split at the last dot after the last separator, unless every
character between the separator and that dot is itself a dot (hidden-file
rule), in which case nothing is split off. -/
def splitext_root (p : String) : String :=
  let cs := p.data
  match last_index_of cs '.' with
  | none => p
  | some dotIndex =>
    let fStart : Nat :=
      match last_index_of cs '/' with
      | none => 0
      | some s => s + 1
    if fStart ≤ dotIndex then
      if (List.range' fStart (dotIndex - fStart)).any (fun j => cs.getD j '.' ≠ '.') then
        (cs.take dotIndex).asString
      else p
    else p

/-- `handle_file_upload` after a file (or no file) comes from the upload
widget: an oversized file only displays an error message (returned as the
second component, the `st.error` text) and leaves the session unchanged; an
accepted file is stored, the movie title is derived from the filename, and
the image's dimensions overwrite the width/height fields. -/
def handle_file_upload (s : Session) (uploaded_file : Option UploadedFile) :
    Session × Option String :=
  match uploaded_file with
  | none => (s, none)
  | some f =>
    if MAX_FILE_SIZE < f.size then
      (s, some "The uploaded file is too large. Please upload an image smaller than 5 MiB.")
    else
      ({ s with
          uploaded_image := some f
          movie_title := some (splitext_root f.name)
          width := f.image.width
          height := f.image.height }, none)

/-- `encode_image`: re-encode the PIL image as JPEG and prepend the base64
data-URI marker. -/
def encode_image (jpeg : List Nat) : String := BASE64_MARKER ++ b64encode jpeg

/-- The JSON request document built by `invoke_model` and uploaded to S3.
Numeric fields are `Option` because `predict_fn` accepts their absence
(`dict.pop` with a default); app.py itself always sends all of them. -/
structure RequestData where
  movie_title : Option String
  image : String
  width : Option Nat
  height : Option Nat
  num_frames : Option Nat
  num_inference_steps : Option Nat
  min_guidance_scale : Option ℚ
  max_guidance_scale : Option ℚ
  fps : Option Nat
  motion_bucket_id : Option Nat
  noise_aug_strength : Option ℚ
  decode_chunk_size : Option Nat
  seed : Option Int

/-- A request document with every optional numeric field missing. -/
def empty_request : RequestData where
  movie_title := none
  image := ""
  width := none
  height := none
  num_frames := none
  num_inference_steps := none
  min_guidance_scale := none
  max_guidance_scale := none
  fps := none
  motion_bucket_id := none
  noise_aug_strength := none
  decode_chunk_size := none
  seed := none

/-- The `data` dictionary `invoke_model` serializes: every session parameter
is sent; fails (Python `AttributeError` on `Image.open(None)`) when no image
was ever stored. -/
def invoke_model_data (s : Session) : Option RequestData :=
  s.uploaded_image.map (fun f =>
    { movie_title := s.movie_title
      image := encode_image f.jpeg_bytes
      width := some s.width
      height := some s.height
      num_frames := some s.num_frames
      num_inference_steps := some s.num_inference_steps
      min_guidance_scale := some s.min_guidance_scale
      max_guidance_scale := some s.max_guidance_scale
      fps := some s.fps
      motion_bucket_id := some s.motion_bucket_id
      noise_aug_strength := some s.noise_aug_strength
      decode_chunk_size := some s.decode_chunk_size
      seed := some s.seed })

/-- The S3 object key used by `upload_file` — a constant, independent of the
session, the title and the image. -/
def upload_file_key (_s : Session) : String := "async_inference/input/payload.json"

/-- `InputLocation` of `invoke_endpoint_async`:
`f"s3://{bucket}/async_inference/input/payload.json"`. -/
def invoke_input_location (s : Session) : String :=
  "s3://" ++ s.s3_bucket ++ "/async_inference/input/payload.json"

/-- Frame rate handed to ffmpeg by `convert_frames_to_video`
(`framerate=st.session_state["fps"]`). -/
def encoder_framerate (s : Session) : Nat := s.fps

/-- The produced video artifact: output path and the frame rate the encoder
was invoked with. -/
structure VideoArtifact where
  path : String
  frameRate : Nat

/-- `convert_frames_to_video`, abstracting the ffmpeg invocation into the
artifact it produces. -/
def convert_frames_to_video (s : Session) (video_path : String) : VideoArtifact :=
  { path := video_path, frameRate := encoder_framerate s }

/-! ### `predict_fn` (inference.py): defaults, thumbnail resize, echo -/

/-- PIL's `round_aspect` for the width branch of `Image.thumbnail`:
`max(min(floor v, ceil v, key=lambda n: abs(aspect - n / y)), 1)` (Python
`min` keeps the first argument on ties). -/
def round_aspect_w (number aspect : ℚ) (y : Nat) : Nat :=
  let f : ℤ := ⌊number⌋
  let c : ℤ := ⌈number⌉
  let pick : ℤ :=
    if |aspect - (f : ℚ) / (y : ℚ)| ≤ |aspect - (c : ℚ) / (y : ℚ)| then f else c
  (max pick 1).toNat

/-- PIL's `round_aspect` for the height branch: the key maps `n = 0` to `0`
instead of dividing by it. -/
def round_aspect_h (number aspect : ℚ) (x : Nat) : Nat :=
  let f : ℤ := ⌊number⌋
  let c : ℤ := ⌈number⌉
  let keyf : ℚ := if f = 0 then 0 else |aspect - (x : ℚ) / (f : ℚ)|
  let keyc : ℚ := if c = 0 then 0 else |aspect - (x : ℚ) / (c : ℚ)|
  let pick : ℤ := if keyf ≤ keyc then f else c
  (max pick 1).toNat

/-- `PIL.Image.thumbnail((x, y))` dimension computation: unchanged when the
image already fits inside the box (never upscales); otherwise shrink to the
box while preserving the aspect ratio `width / height` up to rounding.
Python's float arithmetic is modelled exactly over `ℚ`. -/
def thumbnail (img : PILImage) (size : Nat × Nat) : PILImage :=
  let x := size.1
  let y := size.2
  if img.width ≤ x ∧ img.height ≤ y then img
  else
    let aspect : ℚ := (img.width : ℚ) / (img.height : ℚ)
    if aspect ≤ (x : ℚ) / (y : ℚ) then
      { width := round_aspect_w ((y : ℚ) * aspect) aspect y, height := y }
    else
      { width := x, height := round_aspect_h ((x : ℚ) / aspect) aspect x }

/-- Arguments `predict_fn` passes to the diffusion pipeline call. -/
structure PipeCall where
  width : Nat
  height : Nat
  num_frames : Nat
  num_inference_steps : Nat
  min_guidance_scale : ℚ
  max_guidance_scale : ℚ
  fps : Nat
  motion_bucket_id : Nat
  noise_aug_strength : ℚ
  decode_chunk_size : Nat
  seed : Int

/-- The `config` object `predict_fn` echoes back in its response. -/
structure EchoedConfig where
  movie_title : Option String
  width : Nat
  height : Nat
  num_frames : Nat
  num_inference_steps : Nat
  min_guidance_scale : ℚ
  max_guidance_scale : ℚ
  fps : Nat
  motion_bucket_id : Nat
  noise_aug_strength : ℚ
  decode_chunk_size : Nat
  seed : Int

/-- The pipeline call `predict_fn` makes, given the decoded conditioning
image `img`: the image is thumbnailed to the requested box and the call uses
`image.width` / `image.height` — the resized image's actual dimensions. -/
def predict_pipe_call (d : RequestData) (img : PILImage) : PipeCall :=
  let width := d.width.getD 1024
  let height := d.height.getD 576
  let image := thumbnail img (width, height)
  { width := image.width
    height := image.height
    num_frames := d.num_frames.getD 25
    num_inference_steps := d.num_inference_steps.getD 25
    min_guidance_scale := d.min_guidance_scale.getD 1.0
    max_guidance_scale := d.max_guidance_scale.getD 3.0
    fps := d.fps.getD 6
    motion_bucket_id := d.motion_bucket_id.getD 127
    noise_aug_strength := d.noise_aug_strength.getD 0.02
    decode_chunk_size := d.decode_chunk_size.getD 8
    seed := d.seed.getD 42 }

/-- The `config` part of `predict_fn`'s return value: the popped request
values (with their defaults), not the post-resize dimensions. -/
def predict_config (d : RequestData) : EchoedConfig :=
  { movie_title := d.movie_title
    width := d.width.getD 1024
    height := d.height.getD 576
    num_frames := d.num_frames.getD 25
    num_inference_steps := d.num_inference_steps.getD 25
    min_guidance_scale := d.min_guidance_scale.getD 1.0
    max_guidance_scale := d.max_guidance_scale.getD 3.0
    fps := d.fps.getD 6
    motion_bucket_id := d.motion_bucket_id.getD 127
    noise_aug_strength := d.noise_aug_strength.getD 0.02
    decode_chunk_size := d.decode_chunk_size.getD 8
    seed := d.seed.getD 42 }

/-! ### Concrete objects used to instantiate the theorems -/

/-- Decidability of the glob round trip, for concrete evaluation. -/
instance (frames : List (List Nat)) : Decidable (glob_round_trip frames) :=
  inferInstanceAs (Decidable (encoder_input_frames (write_frames frames) = frames))

/-- A small conditioning image. -/
def demo_image : PILImage := ⟨2048, 2048⟩

/-- An accepted upload: 2 KiB, well under the limit. -/
def demo_file : UploadedFile := ⟨"demo.png", 2048, demo_image, [1, 2, 3]⟩

/-- An upload one byte over the 5 MiB limit. -/
def big_file : UploadedFile := ⟨"big.png", MAX_FILE_SIZE + 1, ⟨4000, 4000⟩, [9]⟩

/-- A session in which `demo_file` has been uploaded. -/
def demo_session : Session :=
  { session_state_defaults with uploaded_image := some demo_file, movie_title := some "demo" }

/-- A request carrying the default box explicitly. -/
def demo_request : RequestData :=
  { empty_request with width := some 1024, height := some 576 }

/-- Environment whose success-location check raises a non-not-found
`ClientError` (`AccessDenied`) from the first iteration. -/
def hard_error_env : PollEnv :=
  ⟨fun _ => .clientError "AccessDenied", fun _ => false⟩

/-! ## Theorems -/

/-- C9: `upload_file` always writes the staged request document to the
constant object key `async_inference/input/payload.json`, independent of the
movie title, the image and every other session value, and
`invoke_endpoint_async`'s `InputLocation` references exactly that key in the
session's bucket — so any two runs against the same bucket stage their
requests to the same location, the later overwriting the earlier. -/
theorem upload_key_constant (s₁ s₂ : Session) :
    upload_file_key s₁ = "async_inference/input/payload.json" ∧
    upload_file_key s₁ = upload_file_key s₂ ∧
    invoke_input_location s₁ = "s3://" ++ s₁.s3_bucket ++ "/" ++ upload_file_key s₁ := by
  refine ⟨rfl, rfl, ?_⟩
  show "s3://" ++ s₁.s3_bucket ++ "/async_inference/input/payload.json" =
    "s3://" ++ s₁.s3_bucket ++ "/" ++ "async_inference/input/payload.json"
  conv_rhs => rw [String.append_assoc]
  rfl

/-- C8: for every session that can invoke the model (an image is uploaded),
the frame rate `convert_frames_to_video` passes to the external encoder — the
produced artifact's `frameRate` — equals the `fps` value `predict_fn` echoes
back in the result document's `config` for the request built from that same
session. -/
theorem artifact_framerate_echo (s : Session) (d : RequestData) (p : String)
    (h : invoke_model_data s = some d) :
    (convert_frames_to_video s p).frameRate = (predict_config d).fps := by
  rcases hu : s.uploaded_image with _ | f
  · simp [invoke_model_data, hu] at h
  · simp [invoke_model_data, hu] at h
    subst h
    simp [predict_config, convert_frames_to_video, encoder_framerate]

/-- Witness for C8 at a concrete session. -/
theorem artifact_framerate_echo_witness :
    (convert_frames_to_video demo_session "video_out/demo.mp4").frameRate =
      (predict_config ((invoke_model_data demo_session).getD empty_request)).fps :=
  artifact_framerate_echo demo_session ((invoke_model_data demo_session).getD empty_request)
    "video_out/demo.mp4" rfl

/-- C7: whenever an optional generation parameter is missing from the request
document, `predict_fn` applies exactly the enumerated default for that field
(width 1024, height 576, num_frames 25, num_inference_steps 25,
min_guidance_scale 1.0, max_guidance_scale 3.0, fps 6, motion_bucket_id 127,
noise_aug_strength 0.02, decode_chunk_size 8, seed 42), and the inference-side
defaults agree with the client-side `reset_session_states` defaults on every
field. -/
theorem parameter_defaults (d : RequestData) :
    (d.width = none → (predict_config d).width = 1024) ∧
    (d.height = none → (predict_config d).height = 576) ∧
    (d.num_frames = none → (predict_config d).num_frames = 25) ∧
    (d.num_inference_steps = none → (predict_config d).num_inference_steps = 25) ∧
    (d.min_guidance_scale = none → (predict_config d).min_guidance_scale = 1.0) ∧
    (d.max_guidance_scale = none → (predict_config d).max_guidance_scale = 3.0) ∧
    (d.fps = none → (predict_config d).fps = 6) ∧
    (d.motion_bucket_id = none → (predict_config d).motion_bucket_id = 127) ∧
    (d.noise_aug_strength = none → (predict_config d).noise_aug_strength = 0.02) ∧
    (d.decode_chunk_size = none → (predict_config d).decode_chunk_size = 8) ∧
    (d.seed = none → (predict_config d).seed = 42) ∧
    predict_config empty_request =
      { movie_title := none
        width := session_state_defaults.width
        height := session_state_defaults.height
        num_frames := session_state_defaults.num_frames
        num_inference_steps := session_state_defaults.num_inference_steps
        min_guidance_scale := session_state_defaults.min_guidance_scale
        max_guidance_scale := session_state_defaults.max_guidance_scale
        fps := session_state_defaults.fps
        motion_bucket_id := session_state_defaults.motion_bucket_id
        noise_aug_strength := session_state_defaults.noise_aug_strength
        decode_chunk_size := session_state_defaults.decode_chunk_size
        seed := session_state_defaults.seed } := by
  refine ⟨fun h => ?_, fun h => ?_, fun h => ?_, fun h => ?_, fun h => ?_, fun h => ?_,
    fun h => ?_, fun h => ?_, fun h => ?_, fun h => ?_, fun h => ?_, rfl⟩ <;>
    simp [predict_config, h]

/-- Witness for C7: the empty request document gets every enumerated default. -/
theorem parameter_defaults_witness :
    (predict_config empty_request).width = 1024 ∧
    (predict_config empty_request).height = 576 ∧
    (predict_config empty_request).num_frames = 25 ∧
    (predict_config empty_request).num_inference_steps = 25 ∧
    (predict_config empty_request).min_guidance_scale = 1.0 ∧
    (predict_config empty_request).max_guidance_scale = 3.0 ∧
    (predict_config empty_request).fps = 6 ∧
    (predict_config empty_request).motion_bucket_id = 127 ∧
    (predict_config empty_request).noise_aug_strength = 0.02 ∧
    (predict_config empty_request).decode_chunk_size = 8 ∧
    (predict_config empty_request).seed = 42 := by
  have h := parameter_defaults empty_request
  exact ⟨h.1 rfl, h.2.1 rfl, h.2.2.1 rfl, h.2.2.2.1 rfl, h.2.2.2.2.1 rfl, h.2.2.2.2.2.1 rfl,
    h.2.2.2.2.2.2.1 rfl, h.2.2.2.2.2.2.2.1 rfl, h.2.2.2.2.2.2.2.2.1 rfl,
    h.2.2.2.2.2.2.2.2.2.1 rfl, h.2.2.2.2.2.2.2.2.2.2.1 rfl⟩

/-- C6: an uploaded conditioning image whose byte size exceeds the 5 MiB
limit only produces the validation error message and leaves the session —
hence the request document any later invocation would stage — untouched, so
no remote call is ever made with that image; an image at or below the limit
is accepted (stored, no error). -/
theorem upload_size_gate (s : Session) (f : UploadedFile) :
    (MAX_FILE_SIZE < f.size →
      handle_file_upload s (some f) =
        (s, some "The uploaded file is too large. Please upload an image smaller than 5 MiB.") ∧
      invoke_model_data (handle_file_upload s (some f)).1 = invoke_model_data s) ∧
    (f.size ≤ MAX_FILE_SIZE →
      (handle_file_upload s (some f)).1.uploaded_image = some f ∧
      (handle_file_upload s (some f)).2 = none) := by
  constructor
  · intro h
    simp [handle_file_upload, h]
  · intro h
    simp [handle_file_upload, Nat.not_lt.mpr h]

/-- Witness for C6: a file one byte over the limit is rejected without
changing the staged request; a 2 KiB file is accepted. -/
theorem upload_size_gate_witness :
    (handle_file_upload session_state_defaults (some big_file) =
      (session_state_defaults,
        some "The uploaded file is too large. Please upload an image smaller than 5 MiB.") ∧
      invoke_model_data (handle_file_upload session_state_defaults (some big_file)).1 =
        invoke_model_data session_state_defaults) ∧
    ((handle_file_upload session_state_defaults (some demo_file)).1.uploaded_image =
        some demo_file ∧
      (handle_file_upload session_state_defaults (some demo_file)).2 = none) :=
  ⟨(upload_size_gate session_state_defaults big_file).1 (by decide),
   (upload_size_gate session_state_defaults demo_file).2 (by decide)⟩

set_option maxRecDepth 4000 in
/-- C1-counterexample: with neither location ever fetchable, after 241
iterations — more than the 240 sleep periods that make up the job's
configured maximum duration of 3600 seconds — `get_model_response` has
performed 241 success-location checks and still resolves nothing: it neither
stops checking at the deadline nor returns any timed-out outcome (the code
has no such outcome at all). -/
theorem poll_deadline_counterexample :
    poll_run never_fetchable_env 241 0 = none ∧
    poll_iters never_fetchable_env 241 0 = 241 ∧
    SLEEP_SECONDS * 240 = INVOCATION_TIMEOUT_SECONDS := by
  refine ⟨?_, ?_, rfl⟩ <;> decide

/-- C1 (amended): the polling loop has no client-side deadline: when neither
the success nor the failure location ever becomes fetchable, then for every
number of iterations the loop is still running (it resolves nothing, in
particular never a timeout outcome) and has performed exactly that many
success-location checks. -/
theorem poll_never_times_out (fuel i : Nat) :
    poll_run never_fetchable_env fuel i = none ∧
    poll_iters never_fetchable_env fuel i = fuel := by
  induction fuel generalizing i with
  | zero => exact ⟨rfl, rfl⟩
  | succ n ih =>
    have hstep : poll_step never_fetchable_env i = none := rfl
    constructor
    · simpa [poll_run, hstep] using (ih (i + 1)).1
    · simpa [poll_iters, hstep] using (ih (i + 1)).2

/-- Helper for C2: in a monotone-visibility environment whose success object
appears at iteration `sa`, no later than the failure object, the loop
resolves `success` as soon as fuel reaches past `sa`. -/
theorem poll_run_first_visible (sa fa : Nat) (h : sa ≤ fa) :
    ∀ fuel i, i ≤ sa → sa < i + fuel →
      poll_run (first_visible_env sa fa) fuel i = some PollResult.success := by
  intro fuel
  induction fuel with
  | zero => intro i h1 h2; omega
  | succ n ih =>
    intro i h1 h2
    by_cases hi : sa ≤ i
    · have hisa : i = sa := Nat.le_antisymm h1 hi
      have hstep : poll_step (first_visible_env sa fa) i = some PollResult.success := by
        simp [poll_step, first_visible_env, hisa]
      simp [poll_run, hstep]
    · push_neg at hi
      have h404 : (first_visible_env sa fa).succ i = HeadResult.clientError "404" := by
        simp [first_visible_env]
        omega
      have hfail : (first_visible_env sa fa).failureFetchable i = false := by
        simp [first_visible_env]
        omega
      have hstep : poll_step (first_visible_env sa fa) i = none := by
        simp [poll_step, h404, hfail, not_found_codes]
      rw [poll_run, hstep]
      exact ih (i + 1) (by omega) (by omega)

/-- C2: the success location is checked before the failure location on every
iteration: in any execution where the success object becomes fetchable at
iteration `sa` and the failure object no earlier (including simultaneously),
the poller resolves success; and on any iteration whose success check
succeeds the loop body can only resolve success, never failure. -/
theorem success_checked_first (sa fa fuel : Nat) (h : sa ≤ fa) (hfuel : sa < fuel) :
    poll_run (first_visible_env sa fa) fuel 0 = some PollResult.success ∧
    (∀ (env : PollEnv) (i : Nat), env.succ i = HeadResult.found →
      poll_step env i = some PollResult.success) := by
  refine ⟨poll_run_first_visible sa fa h fuel 0 (Nat.zero_le _) (by omega), ?_⟩
  intro env i hfound
  simp [poll_step, hfound]

/-- Witness for C2: success and failure artifacts both fetchable from the
very first iteration — the poller still resolves success. -/
theorem success_checked_first_witness :
    poll_run (first_visible_env 0 0) 1 0 = some PollResult.success ∧
    poll_step (first_visible_env 0 0) 0 = some PollResult.success :=
  ⟨(success_checked_first 0 0 1 (Nat.le_refl 0) Nat.zero_lt_one).1,
   (success_checked_first 0 0 1 (Nat.le_refl 0) Nat.zero_lt_one).2 (first_visible_env 0 0) 0 rfl⟩

/-- C5: a `ClientError` outside the not-found kinds (`NoSuchKey`, `404`)
during the success-location check makes the loop re-raise it at once: the
run ends with that error after exactly one check, with no retry and no
further sleep-and-recheck iteration; only the not-found kinds (with the
failure object not fetchable) continue the waiting loop. -/
theorem hard_error_propagates (env : PollEnv) (fuel i : Nat) (code : String)
    (hsucc : env.succ i = HeadResult.clientError code) (hcode : code ∉ not_found_codes) :
    poll_run env (fuel + 1) i = some (PollResult.raised code) ∧
    poll_iters env (fuel + 1) i = 1 ∧
    (∀ (e : PollEnv) (j : Nat) (c : String), e.succ j = HeadResult.clientError c →
      c ∈ not_found_codes → e.failureFetchable j = false → poll_step e j = none) := by
  have hstep : poll_step env i = some (PollResult.raised code) := by
    simp [poll_step, hsucc, hcode]
  refine ⟨by simp [poll_run, hstep], by simp [poll_iters, hstep], ?_⟩
  intro e j c h1 h2 h3
  simp [poll_step, h1, h2, h3]

/-- Witness for C5: an `AccessDenied` error on the first check is re-raised
immediately after a single check, while a 404 with no failure artifact just
keeps waiting. -/
theorem hard_error_propagates_witness :
    poll_run hard_error_env 1 0 = some (PollResult.raised "AccessDenied") ∧
    poll_iters hard_error_env 1 0 = 1 ∧
    poll_step never_fetchable_env 0 = none := by
  have h := hard_error_propagates hard_error_env 0 0 "AccessDenied" rfl (by decide)
  exact ⟨h.1, h.2.1, h.2.2 never_fetchable_env 0 "404" rfl (by decide) rfl⟩

/-- C4-counterexample: an empty `frames` array does NOT fail —
`process_video_frames` silently produces an empty frame set (it writes no
files and raises nothing), contradicting the claim that decoding fails with
a typed error on an empty frames array. -/
theorem decode_empty_counterexample : process_video_frames [] = Except.ok [] := rfl

/-- C4 (amended): frame decoding never fails on an empty frames array (it
silently yields an empty frame set), and a non-base64 entry raises an
(untyped) error only when the count of its base64-alphabet characters is
incompatible with base64 padding — an entry consisting solely of discarded
non-alphabet characters silently decodes to empty bytes, while a valid entry
decodes to its bytes. -/
theorem decode_leniency :
    process_video_frames [] = Except.ok [] ∧
    process_video_frames ["????"] = Except.ok [("frames_out/frame_01.jpg", [])] ∧
    process_video_frames ["abc"] = Except.error "Incorrect padding" ∧
    process_video_frames ["a"] = Except.error
      "Invalid base64-encoded string: number of data characters cannot be 1 more than a multiple of 4" ∧
    process_video_frames ["AAAA"] = Except.ok [("frames_out/frame_01.jpg", [0, 0, 0])] :=
  ⟨rfl, rfl, rfl, rfl, rfl⟩

/-- Filenames written by `write_frames` are the frame names of `0..N-1`. -/
theorem write_frames_names (frames : List (List Nat)) :
    (write_frames frames).map Prod.fst = (List.range frames.length).map frame_name := by
  simp [write_frames, List.map_map, Function.comp, ← List.enum_map_fst]

/-- Contents written by `write_frames` are the original frames in order. -/
theorem write_frames_bytes (frames : List (List Nat)) :
    (write_frames frames).map Prod.snd = frames := by
  simp [write_frames, List.map_map, Function.comp]
  exact List.enum_map_snd frames

/-- Lexical order on character lists is irreflexive. -/
theorem charsLt_irrefl : ∀ cs : List Char, charsLt cs cs = false := by
  intro cs
  induction cs with
  | nil => rfl
  | cons a as ih => simp [charsLt, ih]

/-- Lexical order on character lists is asymmetric. -/
theorem charsLt_asymm : ∀ as bs : List Char, charsLt as bs = true → charsLt bs as = false := by
  intro as
  induction as with
  | nil =>
    intro bs h
    cases bs with
    | nil => rfl
    | cons b bs => rfl
  | cons a as ih =>
    intro bs h
    cases bs with
    | nil => simp [charsLt] at h
    | cons b bs =>
      simp only [charsLt, Bool.or_eq_true, Bool.and_eq_true, decide_eq_true_eq] at h
      rcases h with h | ⟨hab, h⟩
      · have h1 : decide (b < a) = false := decide_eq_false (lt_asymm h)
        have h2 : decide (b = a) = false :=
          decide_eq_false (fun hba => absurd hba.symm (ne_of_lt h))
        simp [charsLt, h1, h2]
      · subst hab
        simp [charsLt, ih bs h]

/-- Strict name order implies distinctness. -/
theorem nameLt_ne {a b : String} (h : nameLt a b = true) : a ≠ b := by
  intro hab
  subst hab
  rw [nameLt, charsLt_irrefl] at h
  exact Bool.false_ne_true h

/-- Strict name order implies the reflexive order used by the glob sort. -/
theorem nameLt_le {a b : String} (h : nameLt a b = true) : nameLe a b = true := by
  rw [nameLe, nameLt, charsLt_asymm a.data b.data h]
  rfl

/-- The first 99 frame names are strictly increasing in lexical order. -/
theorem sorted_names_99 :
    ((List.range 99).map frame_name).Pairwise (fun a b => nameLt a b = true) := by decide

/-- The first `N ≤ 99` frame names are strictly increasing in lexical
order (a prefix of the 99-name list). -/
theorem names_pairwise_lt (N : Nat) (h : N ≤ 99) :
    ((List.range N).map frame_name).Pairwise (fun a b => nameLt a b = true) := by
  have hpre : List.Sublist ((List.range N).map frame_name)
      ((List.range 99).map frame_name) := by
    have hr : List.range N = (List.range 99).take N := by
      rw [List.take_range, Nat.min_eq_left h]
    rw [hr, List.map_take]
    exact List.take_sublist N _
  exact List.Pairwise.sublist hpre sorted_names_99

/-- Reading back each filename of an association list with distinct keys, in
any enumeration of exactly those keys, returns the associated values. -/
theorem filterMap_lookup (files : List (String × List Nat))
    (h : (files.map Prod.fst).Pairwise (fun a b => a ≠ b)) :
    (files.map Prod.fst).filterMap (fun n => files.lookup n) = files.map Prod.snd := by
  induction files with
  | nil => rfl
  | cons a t ih =>
    replace h : List.Pairwise (fun x y => x ≠ y) (a.1 :: t.map Prod.fst) := h
    rw [List.pairwise_cons] at h
    show List.filterMap (fun n => List.lookup n (a :: t)) (a.1 :: t.map Prod.fst) =
      a.2 :: t.map Prod.snd
    rw [List.filterMap_cons]
    have hhead : List.lookup a.1 (a :: t) = some a.2 := by
      simp [List.lookup]
    rw [hhead]
    have htail : (t.map Prod.fst).filterMap (fun n => List.lookup n (a :: t)) =
        (t.map Prod.fst).filterMap (fun n => List.lookup n t) := by
      apply List.filterMap_congr
      intro n hn
      have hne : a.1 ≠ n := h.1 n hn
      simp [List.lookup, beq_eq_false_iff_ne.mpr (Ne.symm hne)]
    rw [htail, ih h.2]

set_option maxRecDepth 100000 in
set_option maxHeartbeats 1000000 in
/-- C3-counterexample: with N = 100 frames the zero-padding is only two
digits wide, so `frames_out/frame_100.jpg` sorts lexically before
`frames_out/frame_11.jpg` (and before `frame_99.jpg`): the encoder's
lexically-sorted glob does not reproduce the original frame order. -/
theorem glob_order_counterexample :
    ¬ glob_round_trip ((List.range 100).map (fun i => [i])) := by decide

/-- C3 (amended): for every frame list with 1 ≤ N ≤ 99 frames, writing the
decoded frames to the zero-padded sequentially numbered files starting at
index 1 and consuming them via the encoder's lexically-sorted glob pattern
reproduces exactly the original frame order; the property fails at N = 100
(see the counterexample) because the padding is two digits wide. -/
theorem frames_glob_round_trip (frames : List (List Nat))
    (_h1 : 1 ≤ frames.length) (h2 : frames.length ≤ 99) :
    glob_round_trip frames := by
  unfold glob_round_trip encoder_input_frames glob_jpgs
  have hnames := write_frames_names frames
  have hlt := names_pairwise_lt frames.length h2
  rw [hnames]
  have hs : List.Sorted (fun a b => nameLe a b = true)
      ((List.range frames.length).map frame_name) :=
    hlt.imp (fun h => nameLt_le h)
  rw [List.Sorted.insertionSort_eq hs, ← hnames]
  rw [filterMap_lookup (write_frames frames)
    (by rw [hnames]; exact hlt.imp (fun h => nameLt_ne h))]
  exact write_frames_bytes frames

/-- Witness for C3 (amended) at three frames. -/
theorem frames_glob_round_trip_witness : glob_round_trip [[0], [1], [2]] :=
  frames_glob_round_trip [[0], [1], [2]] (by decide) (by decide)


/-- Clamped rounding (floor or ceiling of `v`, then clamp below by 1) never
exceeds an integer bound `m ≥ 1` that dominates `v`. -/
theorem clamp_round_le (v : ℚ) (r : Nat)
    (hr : r = (max ⌊v⌋ 1).toNat ∨ r = (max ⌈v⌉ 1).toNat)
    (m : Nat) (hm : 1 ≤ m) (hvm : v ≤ (m : ℚ)) : r ≤ m := by
  have hceil : ⌈v⌉ ≤ (m : ℤ) := by
    rw [Int.ceil_le]
    exact_mod_cast hvm
  have hfloor : ⌊v⌋ ≤ (m : ℤ) := le_trans (Int.floor_le_ceil v) hceil
  have hm' : (1 : ℤ) ≤ (m : ℤ) := by exact_mod_cast hm
  rcases hr with h | h <;> subst h
  · exact Int.toNat_le.mpr (max_le hfloor hm')
  · exact Int.toNat_le.mpr (max_le hceil hm')

/-- Clamped rounding of a nonnegative value stays within distance 1 of it. -/
theorem clamp_round_near (v : ℚ) (hv : 0 ≤ v) (r : Nat)
    (hr : r = (max ⌊v⌋ 1).toNat ∨ r = (max ⌈v⌉ 1).toNat) :
    |((r : ℚ)) - v| ≤ 1 := by
  rcases hr with h | h <;> subst h
  · by_cases h1 : 1 ≤ ⌊v⌋
    · have hcast : (((max ⌊v⌋ 1).toNat : ℚ)) = ((⌊v⌋ : ℚ)) := by
        rw [max_eq_left h1]
        exact_mod_cast Int.toNat_of_nonneg (by omega)
      rw [hcast, abs_le]
      constructor
      · linarith [Int.sub_one_lt_floor v]
      · linarith [Int.floor_le v]
    · push_neg at h1
      have hmax : max ⌊v⌋ 1 = 1 := max_eq_right (by omega)
      have hvlt : v < 1 := by
        have hlt := Int.lt_floor_add_one v
        have h0 : ((⌊v⌋ : ℚ)) ≤ 0 := by exact_mod_cast (by omega : ⌊v⌋ ≤ 0)
        linarith
      rw [hmax]
      have hone : (((1 : ℤ).toNat : ℚ)) = 1 := by norm_num
      rw [hone, abs_le]
      constructor
      · linarith
      · linarith
  · by_cases h1 : 1 ≤ ⌈v⌉
    · have hcast : (((max ⌈v⌉ 1).toNat : ℚ)) = ((⌈v⌉ : ℚ)) := by
        rw [max_eq_left h1]
        exact_mod_cast Int.toNat_of_nonneg (by omega)
      rw [hcast, abs_le]
      constructor
      · linarith [Int.le_ceil v]
      · linarith [Int.ceil_lt_add_one v]
    · push_neg at h1
      have hmax : max ⌈v⌉ 1 = 1 := max_eq_right (by omega)
      have hv0 : v = 0 := by
        have hle := Int.le_ceil v
        have h0 : ((⌈v⌉ : ℚ)) ≤ 0 := by exact_mod_cast (by omega : ⌈v⌉ ≤ 0)
        exact le_antisymm (by linarith) hv
      rw [hmax, hv0]
      have hone : (((1 : ℤ).toNat : ℚ)) = 1 := by norm_num
      rw [hone]
      norm_num

/-- `round_aspect_w` yields the clamped floor or the clamped ceiling of its
argument, whichever the tie-break key selects. -/
theorem round_aspect_w_cases (v a : ℚ) (y : Nat) :
    round_aspect_w v a y = (max ⌊v⌋ 1).toNat ∨
    round_aspect_w v a y = (max ⌈v⌉ 1).toNat := by
  simp only [round_aspect_w]
  split_ifs <;> first
  | exact Or.inl rfl
  | exact Or.inr rfl

/-- `round_aspect_h` yields the clamped floor or the clamped ceiling of its
argument, whichever the tie-break key selects. -/
theorem round_aspect_h_cases (v a : ℚ) (x : Nat) :
    round_aspect_h v a x = (max ⌊v⌋ 1).toNat ∨
    round_aspect_h v a x = (max ⌈v⌉ 1).toNat := by
  simp only [round_aspect_h]
  split_ifs <;> first
  | exact Or.inl rfl
  | exact Or.inr rfl

/-- Facts about `PIL.Image.thumbnail` for positive boxes and images: the
result fits inside the requested box, never upscales beyond the original
dimensions, and preserves the aspect ratio up to one unit of rounding in the
recomputed dimension. -/
theorem thumbnail_spec (img : PILImage) (x y : Nat)
    (hx : 1 ≤ x) (hy : 1 ≤ y) (hw : 1 ≤ img.width) (hh : 1 ≤ img.height) :
    (thumbnail img (x, y)).width ≤ x ∧
    (thumbnail img (x, y)).height ≤ y ∧
    (thumbnail img (x, y)).width ≤ img.width ∧
    (thumbnail img (x, y)).height ≤ img.height ∧
    (|((thumbnail img (x, y)).width : ℚ) -
        ((thumbnail img (x, y)).height : ℚ) * ((img.width : ℚ) / (img.height : ℚ))| ≤ 1 ∨
      |((thumbnail img (x, y)).height : ℚ) -
        ((thumbnail img (x, y)).width : ℚ) * ((img.height : ℚ) / (img.width : ℚ))| ≤ 1) := by
  have hw0 : (0 : ℚ) < (img.width : ℚ) := by
    exact_mod_cast Nat.lt_of_lt_of_le Nat.zero_lt_one hw
  have hh0 : (0 : ℚ) < (img.height : ℚ) := by
    exact_mod_cast Nat.lt_of_lt_of_le Nat.zero_lt_one hh
  have hx0 : (0 : ℚ) < (x : ℚ) := by exact_mod_cast Nat.lt_of_lt_of_le Nat.zero_lt_one hx
  have hy0 : (0 : ℚ) < (y : ℚ) := by exact_mod_cast Nat.lt_of_lt_of_le Nat.zero_lt_one hy
  by_cases hfit : img.width ≤ x ∧ img.height ≤ y
  · have ht : thumbnail img (x, y) = img := by
      simp only [thumbnail]
      rw [if_pos hfit]
    rw [ht]
    refine ⟨hfit.1, hfit.2, le_refl _, le_refl _, Or.inl ?_⟩
    have hcancel : (img.height : ℚ) * ((img.width : ℚ) / (img.height : ℚ)) =
        (img.width : ℚ) := by
      field_simp
    rw [hcancel, sub_self, abs_zero]
    norm_num
  · by_cases hbr : (img.width : ℚ) / (img.height : ℚ) ≤ (x : ℚ) / (y : ℚ)
    · -- width recomputed, height pinned to y
      have ht : thumbnail img (x, y) =
          ⟨round_aspect_w ((y : ℚ) * ((img.width : ℚ) / (img.height : ℚ)))
            ((img.width : ℚ) / (img.height : ℚ)) y, y⟩ := by
        simp only [thumbnail]
        rw [if_neg hfit, if_pos hbr]
      have hvx : (y : ℚ) * ((img.width : ℚ) / (img.height : ℚ)) ≤ (x : ℚ) := by
        calc (y : ℚ) * ((img.width : ℚ) / (img.height : ℚ))
            ≤ (y : ℚ) * ((x : ℚ) / (y : ℚ)) := mul_le_mul_of_nonneg_left hbr hy0.le
          _ = (x : ℚ) := by field_simp
      have hyh : y ≤ img.height := by
        by_contra hcon
        push_neg at hcon
        have hxw : x < img.width := by
          rcases Nat.lt_or_ge x img.width with hc | hc
          · exact hc
          · exact absurd ⟨hc, Nat.le_of_lt hcon⟩ hfit
        have hcross : (img.width : ℚ) * (y : ℚ) ≤ (x : ℚ) * (img.height : ℚ) :=
          (div_le_div_iff₀ hh0 hy0).mp hbr
        have hconq : (img.height : ℚ) < (y : ℚ) := by exact_mod_cast hcon
        have hxwq : (x : ℚ) < (img.width : ℚ) := by exact_mod_cast hxw
        nlinarith [mul_pos (sub_pos.mpr hxwq) hy0, mul_pos hx0 (sub_pos.mpr hconq)]
      have hvw : (y : ℚ) * ((img.width : ℚ) / (img.height : ℚ)) ≤ (img.width : ℚ) := by
        have hyhq : (y : ℚ) ≤ (img.height : ℚ) := by exact_mod_cast hyh
        calc (y : ℚ) * ((img.width : ℚ) / (img.height : ℚ))
            ≤ (img.height : ℚ) * ((img.width : ℚ) / (img.height : ℚ)) :=
              mul_le_mul_of_nonneg_right hyhq (by positivity)
          _ = (img.width : ℚ) := by field_simp
      have hv0 : (0 : ℚ) ≤ (y : ℚ) * ((img.width : ℚ) / (img.height : ℚ)) := by positivity
      rw [ht]
      exact ⟨clamp_round_le _ _ (round_aspect_w_cases _ _ _) x hx hvx, le_refl y,
        clamp_round_le _ _ (round_aspect_w_cases _ _ _) img.width hw hvw, hyh,
        Or.inl (clamp_round_near _ hv0 _ (round_aspect_w_cases _ _ _))⟩
    · -- height recomputed, width pinned to x
      push_neg at hbr
      have hbrn : ¬((img.width : ℚ) / (img.height : ℚ) ≤ (x : ℚ) / (y : ℚ)) := not_le.mpr hbr
      have ht : thumbnail img (x, y) =
          ⟨x, round_aspect_h ((x : ℚ) / ((img.width : ℚ) / (img.height : ℚ)))
            ((img.width : ℚ) / (img.height : ℚ)) x⟩ := by
        simp only [thumbnail]
        rw [if_neg hfit, if_neg hbrn]
      have ha0 : (0 : ℚ) < (img.width : ℚ) / (img.height : ℚ) := by positivity
      have hcross : (x : ℚ) * (img.height : ℚ) < (img.width : ℚ) * (y : ℚ) :=
        (div_lt_div_iff₀ hy0 hh0).mp hbr
      have hvy : (x : ℚ) / ((img.width : ℚ) / (img.height : ℚ)) ≤ (y : ℚ) := by
        rw [div_le_iff₀ ha0, ← mul_div_assoc, le_div_iff₀ hh0]
        nlinarith
      have hxw : x ≤ img.width := by
        by_contra hcon
        push_neg at hcon
        have hyh : y < img.height := by
          rcases Nat.lt_or_ge y img.height with hc | hc
          · exact hc
          · exact absurd ⟨Nat.le_of_lt hcon, hc⟩ hfit
        have hconq : (img.width : ℚ) < (x : ℚ) := by exact_mod_cast hcon
        have hyhq : (y : ℚ) < (img.height : ℚ) := by exact_mod_cast hyh
        nlinarith [mul_pos (sub_pos.mpr hconq) hh0, mul_pos hw0 (sub_pos.mpr hyhq)]
      have hvh : (x : ℚ) / ((img.width : ℚ) / (img.height : ℚ)) ≤ (img.height : ℚ) := by
        rw [div_le_iff₀ ha0]
        have hcancel : (img.height : ℚ) * ((img.width : ℚ) / (img.height : ℚ)) =
            (img.width : ℚ) := by
          field_simp
        rw [hcancel]
        exact_mod_cast hxw
      have hveq : (x : ℚ) / ((img.width : ℚ) / (img.height : ℚ)) =
          (x : ℚ) * ((img.height : ℚ) / (img.width : ℚ)) := by
        rw [div_div_eq_mul_div, mul_div_assoc]
      have hv0 : (0 : ℚ) ≤ (x : ℚ) / ((img.width : ℚ) / (img.height : ℚ)) := by positivity
      have hnear := clamp_round_near _ hv0 _
        (round_aspect_h_cases ((x : ℚ) / ((img.width : ℚ) / (img.height : ℚ)))
          ((img.width : ℚ) / (img.height : ℚ)) x)
      nth_rewrite 2 [hveq] at hnear
      rw [ht]
      exact ⟨le_refl x, clamp_round_le _ _ (round_aspect_h_cases _ _ _) y hy hvy, hxw,
        clamp_round_le _ _ (round_aspect_h_cases _ _ _) img.height hh hvh, Or.inr hnear⟩

/-- C10: `predict_fn` thumbnails the conditioning image into the requested
width/height box — preserving aspect ratio up to rounding and never
upscaling — and calls the generation pipeline with the resized image's actual
dimensions, while the echoed config carries the requested width/height; the
echoed values are therefore upper bounds on the generated frame dimensions
and need not equal them. -/
theorem pipe_uses_resized_dims (d : RequestData) (img : PILImage)
    (hx : 1 ≤ d.width.getD 1024) (hy : 1 ≤ d.height.getD 576)
    (hw : 1 ≤ img.width) (hh : 1 ≤ img.height) :
    (predict_pipe_call d img).width =
      (thumbnail img (d.width.getD 1024, d.height.getD 576)).width ∧
    (predict_pipe_call d img).height =
      (thumbnail img (d.width.getD 1024, d.height.getD 576)).height ∧
    (predict_config d).width = d.width.getD 1024 ∧
    (predict_config d).height = d.height.getD 576 ∧
    (predict_pipe_call d img).width ≤ (predict_config d).width ∧
    (predict_pipe_call d img).height ≤ (predict_config d).height ∧
    (predict_pipe_call d img).width ≤ img.width ∧
    (predict_pipe_call d img).height ≤ img.height ∧
    (|((predict_pipe_call d img).width : ℚ) -
        ((predict_pipe_call d img).height : ℚ) * ((img.width : ℚ) / (img.height : ℚ))| ≤ 1 ∨
      |((predict_pipe_call d img).height : ℚ) -
        ((predict_pipe_call d img).width : ℚ) * ((img.height : ℚ) / (img.width : ℚ))| ≤ 1) := by
  obtain ⟨h1, h2, h3, h4, h5⟩ :=
    thumbnail_spec img (d.width.getD 1024) (d.height.getD 576) hx hy hw hh
  exact ⟨rfl, rfl, rfl, rfl, h1, h2, h3, h4, h5⟩

/-- Witness for C10: the default 1024x576 box applied to a 2048x2048 image. -/
theorem pipe_uses_resized_dims_witness :
    (predict_pipe_call demo_request demo_image).width ≤ (predict_config demo_request).width ∧
    (predict_pipe_call demo_request demo_image).height ≤ (predict_config demo_request).height ∧
    (predict_pipe_call demo_request demo_image).width ≤ demo_image.width ∧
    (predict_pipe_call demo_request demo_image).height ≤ demo_image.height :=
  have h := pipe_uses_resized_dims demo_request demo_image
    (by decide) (by decide) (by decide) (by decide)
  ⟨h.2.2.2.2.1, h.2.2.2.2.2.1, h.2.2.2.2.2.2.1, h.2.2.2.2.2.2.2.1⟩

end SVD
